import Mathlib

/-!
Shallow embedding of the low-level file-access layer in
`src/core/store/SimpleFSDirectory.cpp` (Lucene++): the raw input file handle
(`InputFile`), the buffered input stream (`SimpleFSIndexInput`), the raw output
file (`OutputFile`) and the buffered output stream (`SimpleFSIndexOutput`).

Conventions of the embedding:
* `int64_t`/`int32_t` values are modelled as `Int` (32-bit overflow of
  `total + chunkSize` is not modelled; no claim depends on it).
* The filesystem is a map from paths to optional byte lists; `InputFile::read`
  reopens the file on each call, so it takes the filesystem at call time,
  which also models external modification of the file after open.
* Thrown C++ exceptions are modelled as `Except` error results; the distinct
  throw sites of the source are the constructors of `Err`.
* The `while` loop of `SimpleFSIndexInput::readInternal` is modelled with
  explicit fuel: a result of `none` means the loop has not finished within
  the given number of iterations (for any fuel: it never finishes).
-/

/-- The error taxonomy, one constructor per throw site of the source:
* `notFound`: `FileNotFoundException(path)` in `InputFile::InputFile` (line 45);
* `outOfRange`: `IOException()` in `InputFile::setPosition` (line 58);
* `unexpectedEOF`: `IOException(L"Read past EOF")` in
  `SimpleFSIndexInput::readInternal` (line 130);
* `ioFailure`: `IOException(L"Failed to read from file: ...")` in
  `SimpleFSIndexInput::readInternal` (line 135);
* `closed`: `IOException(L"file is closed: ...")` in `OutputFile::write`
  (line 185) and the spec's `Closed` error for a closed stream. -/
inductive Err where
  | notFound
  | outOfRange
  | unexpectedEOF
  | ioFailure
  | closed
deriving DecidableEq, Repr

/-- The filesystem visible to this layer: each path is either absent (`none`)
or holds a list of bytes.  `FileUtils::fileExists` is `(files p).isSome` and
`FileUtils::fileLength` is the length of the stored list. -/
structure FS where
  files : String → Option (List Nat)

/-- `InputFile` (raw file handle, input): `path` (immutable), `position`
(`int64_t`, mutable), `length` (`int64_t`, fixed snapshot recorded by the
constructor).  No OS resource is held between reads. -/
structure InputFile where
  path : String
  position : Int
  length : Int
deriving DecidableEq, Repr

/-- `InputFile::InputFile(path)` (lines 41-49): throws `FileNotFoundException`
if the path does not exist, otherwise sets `position = 0` and records
`length = FileUtils::fileLength(path)` as a snapshot. -/
def InputFile.construct (fs : FS) (path : String) : Except Err InputFile :=
  match fs.files path with
  | none => Except.error Err.notFound
  | some content => Except.ok { path := path, position := 0, length := (content.length : Int) }

/-- `InputFile::setPosition(p)` (lines 54-60).  Note the source order: the
member `position` is assigned FIRST, and only then is `p` validated against
`[0, length]`; on failure the handle keeps the invalid position. -/
def InputFile.setPosition (f : InputFile) (p : Int) : InputFile × Except Err Unit :=
  let f1 : InputFile := { f with position := p }
  if p < 0 ∨ p > f.length then (f1, Except.error Err.outOfRange) else (f1, Except.ok ())

/-- `InputFile::getPosition` (lines 62-64). -/
def InputFile.getPosition (f : InputFile) : Int := f.position

/-- `InputFile::getLength` (lines 66-68). -/
def InputFile.getLength (f : InputFile) : Int := f.length

/-- Outcome of `InputFile::read`: the sentinel constants `FILE_EOF` and
`FILE_ERROR` (negative `int32_t` values in the source) or a transferred byte
count. -/
inductive ReadOutcome where
  | bytes (n : Int)
  | fileEOF
  | fileError
deriving DecidableEq, Repr

/-- `true` exactly on the `FILE_EOF` sentinel. -/
def ReadOutcome.isEOF : ReadOutcome → Bool
  | ReadOutcome.fileEOF => true
  | _ => false

/-- `InputFile::read(b, offset, length)` (lines 70-88).  The source opens a
FRESH `ifstream` on each call, seeks it to `position` and transfers up to
`length` bytes:
* if the file cannot be opened, or `seekg` fails (negative offset), the
  `!file.is_open() || !file.good()` test yields `FILE_ERROR`;
* the `file.eof()` test on line 78 examines a freshly opened stream whose
  eofbit is clear (`seekg` never sets it, and a failed `seekg` is caught by
  the previous test), so the `FILE_EOF` branch is unreachable;
* otherwise `file.read` transfers `gcount = max 0 (min length (fileSize -
  position))` bytes (a seek past the end succeeds and the subsequent read
  transfers nothing) and `position` advances by that count.
The destination buffer contents are not needed by any claim and are omitted;
the transferred count and the position update are modelled exactly. -/
def InputFile.read (f : InputFile) (fs : FS) (reqLen : Int) : InputFile × ReadOutcome :=
  match fs.files f.path with
  | none => (f, ReadOutcome.fileError)
  | some content =>
    if f.position < 0 then (f, ReadOutcome.fileError)
    else
      let cnt : Int := max 0 (min reqLen ((content.length : Int) - f.position))
      ({ f with position := f.position + cnt }, ReadOutcome.bytes cnt)

/-- `InputFile::close` (lines 90-92) is a no-op. -/
def InputFile.close (f : InputFile) : InputFile := f

/-- `SimpleFSIndexInput`: buffered input stream over a shared `InputFile`.
`filePointer` is the logical stream position `getFilePointer()` maintained by
the base class `BufferedIndexInput` (not in src/); per the spec it is the
stream's own logical position, independent per clone.  The buffer itself and
`bufferSize` live in the missing base class and are not needed by the claims:
`readInternal` is the fill primitive the base class calls. -/
structure SimpleFSIndexInput where
  path : String
  file : InputFile
  chunkSize : Int
  isClone : Bool
  filePointer : Int
deriving DecidableEq, Repr

/-- `SimpleFSIndexInput::SimpleFSIndexInput(path, bufferSize, chunkSize)`
(lines 105-110): opens the `InputFile` (which may throw `notFound`), stores
`path` and `chunkSize`, `isClone = false`; the base class starts the logical
position at 0. -/
def SimpleFSIndexInput.construct (fs : FS) (path : String) (chunkSize : Int) :
    Except Err SimpleFSIndexInput :=
  match InputFile.construct fs path with
  | Except.error e => Except.error e
  | Except.ok f =>
      Except.ok { path := path, file := f, chunkSize := chunkSize,
                  isClone := false, filePointer := 0 }

/-- The position-reconciliation step of `readInternal` (lines 118-121): if the
shared handle's recorded position differs from this stream's logical position,
reposition the handle with `setPosition` (which may throw); otherwise the
handle is not touched. -/
def SimpleFSIndexInput.reconcile (s : SimpleFSIndexInput) : InputFile × Except Err Unit :=
  if s.filePointer ≠ s.file.position then s.file.setPosition s.filePointer
  else (s.file, Except.ok ())

/-- The `while (total < length)` loop of `readInternal` (lines 123-138),
with explicit fuel.  Each iteration computes
`readLength = (total + chunkSize > length) ? (length - total) : chunkSize`,
performs one physical `InputFile::read`, turns the `FILE_EOF` sentinel into
the `unexpectedEOF` error ("Read past EOF") and the `FILE_ERROR` sentinel
into `ioFailure`, and otherwise accumulates the transferred count.
`none` means the loop is still running after `fuel` iterations. -/
def readLoop (fs : FS) (chunkSize len : Int) :
    InputFile → Int → Nat → Option (InputFile × Except Err Int)
  | file, total, fuel =>
    if total < len then
      match fuel with
      | 0 => none
      | fuel' + 1 =>
        let readLength : Int := if total + chunkSize > len then len - total else chunkSize
        match file.read fs readLength with
        | (file', ReadOutcome.fileEOF) => some (file', Except.error Err.unexpectedEOF)
        | (file', ReadOutcome.fileError) => some (file', Except.error Err.ioFailure)
        | (file', ReadOutcome.bytes i) => readLoop fs chunkSize len file' (total + i) fuel'
    else some (file, Except.ok total)

/-- `SimpleFSIndexInput::readInternal(b, offset, length)` (lines 115-139):
under the handle's `SyncLock`, reconcile the handle position with the logical
position, then run the bounded-chunk fill loop.  A thrown exception is an
`Except.error` paired with the handle state at the throw site; `none` means
the fill loop never finished within `fuel` iterations.  On success the
accumulated total is returned (the C++ function returns `void`; the total is
the loop's own bookkeeping). -/
def SimpleFSIndexInput.readInternal (s : SimpleFSIndexInput) (fs : FS) (len : Int)
    (fuel : Nat) : Option (SimpleFSIndexInput × Except Err Int) :=
  match s.reconcile with
  | (file1, Except.error e) => some ({ s with file := file1 }, Except.error e)
  | (file1, Except.ok _) =>
      (readLoop fs s.chunkSize len file1 0 fuel).map
        (fun r => ({ s with file := r.1 }, r.2))

/-- `SimpleFSIndexInput::seekInternal(pos)` (lines 141-142): the body is
empty — seeking performs no operation on the shared handle. -/
def SimpleFSIndexInput.seekInternal (s : SimpleFSIndexInput) (_pos : Int) :
    SimpleFSIndexInput := s

/-- Modelled from the spec: `BufferedIndexInput::seek` is not in src/; per the
spec, `seek(pos)` is "purely a logical position update" that routes through
this class only via the empty `seekInternal` — it updates the stream's
logical position and nothing else. -/
def SimpleFSIndexInput.seek (s : SimpleFSIndexInput) (pos : Int) : SimpleFSIndexInput :=
  { s.seekInternal pos with filePointer := pos }

/-- `SimpleFSIndexInput::length` (lines 144-146): `file->getLength()`. -/
def SimpleFSIndexInput.length (s : SimpleFSIndexInput) : Int :=
  s.file.getLength

/-- `SimpleFSIndexInput::clone` (lines 158-166): the clone gets the same
`path`, the same shared `file` handle and the same `chunkSize`, and is marked
`isClone = true`.  The copy of the current logical position is modelled from
the spec (`BufferedIndexInput::clone` is not in src/; the spec: "its own copy
of the current logical position").  Cloning takes no filesystem argument:
it performs no I/O. -/
def SimpleFSIndexInput.clone (s : SimpleFSIndexInput) : SimpleFSIndexInput :=
  { path := s.path, file := s.file, chunkSize := s.chunkSize,
    isClone := true, filePointer := s.filePointer }

/-- `OutputFile` (raw file handle, output): `path`, whether the persistent
`ofstream` handle is open, and the put cursor.  The on-disk byte contents are
threaded separately (as a `List Nat`) through the operations, since they
outlive the handle. -/
structure OutputFile where
  path : String
  isHandleOpen : Bool
  cursor : Nat
deriving DecidableEq, Repr

/-- Overwrite `disk` with `bytes` starting at `cursor`, zero-filling any gap
(a put position past the end followed by a write extends the file). -/
def writeAt (disk : List Nat) (cursor : Nat) (bytes : List Nat) : List Nat :=
  disk.take cursor ++ List.replicate (cursor - disk.length) 0 ++ bytes
    ++ disk.drop (cursor + bytes.length)

/-- `OutputFile::write(b, offset, length)` (lines 182-197): throws the
`closed` error if the handle is not open; otherwise writes the bytes at the
cursor and advances it.  Stream I/O faults (`!file->good()`) are environment
failures outside the model: the modelled substrate never faults mid-write. -/
def OutputFile.write (f : OutputFile) (disk : List Nat) (bytes : List Nat) :
    OutputFile × List Nat × Except Err Unit :=
  if f.isHandleOpen = false then (f, disk, Except.error Err.closed)
  else ({ f with cursor := f.cursor + bytes.length }, writeAt disk f.cursor bytes,
        Except.ok ())

/-- `OutputFile::close` (lines 199-201): `file.reset()` releases the
persistent handle. -/
def OutputFile.close (f : OutputFile) : OutputFile := { f with isHandleOpen := false }

/-- `SimpleFSIndexOutput`: buffered output stream.  `file` is the
`OutputFilePtr`, which `close()` resets to null (`none`); `isOpen` is the
source's flag; `buffer` is the pending in-memory buffer of the base class
`BufferedIndexOutput` (not in src/, modelled from the spec). -/
structure SimpleFSIndexOutput where
  file : Option OutputFile
  isOpen : Bool
  buffer : List Nat
deriving DecidableEq, Repr

/-- `SimpleFSIndexOutput::SimpleFSIndexOutput(path)` (lines 228-231): opens
the `OutputFile` and sets `isOpen = true` (the open-failure mode of
`OutputFile`'s constructor is an environment fault outside the model). -/
def SimpleFSIndexOutput.construct (path : String) : SimpleFSIndexOutput :=
  { file := some { path := path, isHandleOpen := true, cursor := 0 },
    isOpen := true, buffer := [] }

/-- `SimpleFSIndexOutput::close` (lines 241-247): only if `isOpen`, first
`BufferedIndexOutput::close()` — modelled from the spec as flushing the
remaining buffered bytes through `flushBuffer` (lines 236-239:
`file->write` then `file->flush`) — then `file.reset()` and `isOpen = false`.
If the flush throws, the exception propagates before the reset, leaving
`isOpen` unchanged, as in the source.  When `isOpen` is false the call is a
no-op.  (The branch with `isOpen` true and a null `file` is unreachable from
`construct`; it closes the stream without flushing.) -/
def SimpleFSIndexOutput.close (s : SimpleFSIndexOutput) (disk : List Nat) :
    SimpleFSIndexOutput × List Nat × Except Err Unit :=
  if s.isOpen then
    match s.file with
    | some f =>
      match f.write disk s.buffer with
      | (_, disk', Except.ok _) =>
          ({ file := none, isOpen := false, buffer := [] }, disk', Except.ok ())
      | (f', disk', Except.error e) =>
          ({ s with file := some f' }, disk', Except.error e)
    | none => ({ file := none, isOpen := false, buffer := [] }, disk, Except.ok ())
  else (s, disk, Except.ok ())

/-- Modelled from the spec: the buffered write path of `BufferedIndexOutput`
is not in src/; per the spec, "using a stream after close fails with
`Closed`", and an open stream accumulates the bytes in the in-memory buffer
(the buffer-capacity flush to the raw handle is elided: no claim depends on
it). -/
def SimpleFSIndexOutput.writeBytes (s : SimpleFSIndexOutput) (disk : List Nat)
    (b : List Nat) : SimpleFSIndexOutput × List Nat × Except Err Unit :=
  if s.isOpen then ({ s with buffer := s.buffer ++ b }, disk, Except.ok ())
  else (s, disk, Except.error Err.closed)

/-- Well-formedness of the output stream as established by `construct`: while
the stream is open, the handle pointer is set and the handle is open. -/
def handleOk : Option OutputFile → Bool
  | some f => f.isHandleOpen
  | none => false

/-- A fixed path used by concrete instances below. -/
def pathA : String := "segments"

/-- A filesystem whose every path holds the empty file. -/
def fsEmpty : FS := { files := fun _ => some [] }

/-- The raw handle obtained by opening the empty file at `pathA`. -/
def fEmpty : InputFile := { path := pathA, position := 0, length := 0 }

/-- The buffered stream over `fEmpty` with `chunkSize = 1`. -/
def sEmpty : SimpleFSIndexInput :=
  { path := pathA, file := fEmpty, chunkSize := 1, isClone := false, filePointer := 0 }

/-- Helper: whenever the handle's position is at or past the end of the file's
current contents and more bytes are still demanded, each physical read
transfers zero bytes (without returning a sentinel), so the fill loop makes no
progress and never terminates, for any amount of fuel. -/
theorem readLoop_stuck (fs : FS) (c : List Nat) (chunk len : Int) :
    ∀ (fuel : Nat) (f : InputFile) (total : Int),
      fs.files f.path = some c → (c.length : Int) ≤ f.position → total < len →
      readLoop fs chunk len f total fuel = none := by
  intro fuel
  induction fuel with
  | zero =>
    intro f total h1 h2 h3
    simp [readLoop, h3]
  | succ n ih =>
    intro f total h1 h2 h3
    have h0 : (0 : Int) ≤ (c.length : Int) := Int.natCast_nonneg _
    have hpos : ¬ f.position < 0 := by omega
    have hcnt : ∀ rl : Int, max 0 (min rl ((c.length : Int) - f.position)) = 0 := by
      intro rl
      omega
    simp only [readLoop, if_pos h3, InputFile.read, h1, if_neg hpos, hcnt]
    exact ih _ _ (by simpa using h1) (by simpa using h2) (by omega)

/-- Claim C1 (code_bug evidence): a fill that requests more bytes than remain
before end of file does NOT fail with `UnexpectedEndOfFile` — it never
returns at all.  At the failing input (empty file, fill of 1 byte,
`chunkSize = 1`) `readInternal` yields `none` for every fuel, i.e. the loop
neither raises an error nor terminates; and for ANY handle, filesystem and
request, `InputFile.read` never produces the `FILE_EOF` sentinel (the
`file.eof()` test of line 78 inspects a freshly opened stream), so the
`"Read past EOF"` branch of `readInternal` (line 130) is dead code. -/
theorem readInternal_past_eof_diverges :
    (∀ fuel : Nat, SimpleFSIndexInput.readInternal sEmpty fsEmpty 1 fuel = none) ∧
    (∀ (fs : FS) (f : InputFile) (len : Int), ((f.read fs len).2).isEOF = false) := by
  constructor
  · intro fuel
    have h := readLoop_stuck fsEmpty [] 1 1 fuel fEmpty 0 rfl (by decide) (by decide)
    simp [SimpleFSIndexInput.readInternal, SimpleFSIndexInput.reconcile, sEmpty, fEmpty]
    exact h
  · intro fs f len
    cases hfs : fs.files f.path with
    | none => simp [InputFile.read, hfs, ReadOutcome.isEOF]
    | some c =>
      by_cases hp : f.position < 0 <;>
        simp [InputFile.read, hfs, hp, ReadOutcome.isEOF]

/-- Claim C2 (code_bug evidence): the bounded-chunk fill loop does NOT
terminate regardless of how few bytes a physical read transfers: whenever the
shared handle stands at or past the end of the file's current contents and
the request is not yet satisfied, every physical read transfers zero bytes,
and the loop neither makes progress nor raises a failure, for any number of
iterations. -/
theorem readLoop_zero_progress_never_terminates
    (fs : FS) (c : List Nat) (chunk len total : Int) (f : InputFile) (fuel : Nat)
    (h1 : fs.files f.path = some c) (h2 : (c.length : Int) ≤ f.position)
    (h3 : total < len) :
    readLoop fs chunk len f total fuel = none :=
  readLoop_stuck fs c chunk len fuel f total h1 h2 h3

/-- Witness for C2's theorem at a concrete input: the empty file, a request
of one byte, seven iterations of fuel. -/
theorem readLoop_zero_progress_never_terminates_witness :
    readLoop fsEmpty 1 1 fEmpty 0 7 = none :=
  readLoop_zero_progress_never_terminates fsEmpty [] 1 1 0 fEmpty 7 rfl
    (by decide) (by decide)

/-- Claim C3 counterexample: on a handle of length 10 positioned at 0,
`setPosition 11` raises the out-of-range error, yet the handle's position is
11 afterwards, not the previous value 0 — the source assigns the member
before validating it, so a failing `setPosition` does NOT leave the position
unchanged. -/
theorem setPosition_failure_mutates_position_cex :
    (InputFile.setPosition { path := pathA, position := 0, length := 10 } 11).2
      = Except.error Err.outOfRange ∧
    ((InputFile.setPosition { path := pathA, position := 0, length := 10 } 11).1).position
      = 11 ∧
    (InputFile.mk pathA 0 10).position = 0 :=
  ⟨rfl, rfl, rfl⟩

/-- Claim C3 (amended): `setPosition(p)` fails with `OutOfRange` exactly when
`p < 0` or `p > length`, but in every case — success or failure — the
handle's position has been set to `p` (the member is assigned before the
validation); `path` and the `length` snapshot are untouched. -/
theorem setPosition_sets_then_validates (f : InputFile) (p : Int) :
    ((f.setPosition p).2 = Except.error Err.outOfRange ↔ (p < 0 ∨ p > f.length)) ∧
    ((f.setPosition p).1).position = p ∧
    ((f.setPosition p).1).length = f.length ∧
    ((f.setPosition p).1).path = f.path := by
  by_cases h : p < 0 ∨ p > f.length <;> simp [InputFile.setPosition, h]

/-- Claim C6: constructing a raw input handle on an absent path fails with
the not-found error; on a present path it sets `position = 0` and records the
file's size at open time as `length`; and that snapshot never changes for the
lifetime of the handle: `read` (against ANY later filesystem state, i.e. even
after external modification) and `setPosition` leave the `length` field
untouched, and the stream's `length()` returns exactly the handle's
snapshot. -/
theorem construct_notfound_and_length_snapshot :
    (∀ (fs : FS) (p : String), fs.files p = none →
        InputFile.construct fs p = Except.error Err.notFound) ∧
    (∀ (fs : FS) (p : String) (c : List Nat), fs.files p = some c →
        InputFile.construct fs p
          = Except.ok { path := p, position := 0, length := (c.length : Int) }) ∧
    (∀ (f : InputFile) (fs' : FS) (len : Int), ((f.read fs' len).1).length = f.length) ∧
    (∀ (f : InputFile) (p : Int), ((f.setPosition p).1).length = f.length) ∧
    (∀ s : SimpleFSIndexInput, s.length = s.file.getLength) := by
  refine ⟨?_, ?_, ?_, ?_, ?_⟩
  · intro fs p h
    simp [InputFile.construct, h]
  · intro fs p c h
    simp [InputFile.construct, h]
  · intro f fs' len
    cases hfs : fs'.files f.path with
    | none => simp [InputFile.read, hfs]
    | some c => by_cases hp : f.position < 0 <;> simp [InputFile.read, hfs, hp]
  · intro f p
    by_cases h : p < 0 ∨ p > f.length <;> simp [InputFile.setPosition, h]
  · intro s
    rfl

/-- Witness for C6's theorem: an absent path fails with not-found; a path
holding three bytes opens with position 0 and length 3; a read of 5 bytes
against a filesystem where the file became empty still reports snapshot
length 3. -/
theorem construct_notfound_and_length_snapshot_witness :
    InputFile.construct { files := fun _ => none } pathA = Except.error Err.notFound ∧
    InputFile.construct { files := fun _ => some [7, 7, 7] } pathA
      = Except.ok { path := pathA, position := 0, length := 3 } ∧
    ((InputFile.read { path := pathA, position := 0, length := 3 } fsEmpty 5).1).length
      = 3 := by
  refine ⟨?_, ?_, ?_⟩
  · exact construct_notfound_and_length_snapshot.1 { files := fun _ => none } pathA rfl
  · exact construct_notfound_and_length_snapshot.2.1
      { files := fun _ => some [7, 7, 7] } pathA [7, 7, 7] rfl
  · exact construct_notfound_and_length_snapshot.2.2.1
      { path := pathA, position := 0, length := 3 } fsEmpty 5

/-- Claim C7: every successful raw-handle read (one returning a byte count,
not the `FILE_EOF` or `FILE_ERROR` sentinel) of a non-negative requested
length transfers a non-negative count of at most the requested length, and
the handle's position advances by exactly that count. -/
theorem read_success_count_bounds_position_advance
    (fs : FS) (f : InputFile) (len : Int) (hlen : 0 ≤ len)
    (f' : InputFile) (n : Int) (h : f.read fs len = (f', ReadOutcome.bytes n)) :
    0 ≤ n ∧ n ≤ len ∧ f'.position = f.position + n := by
  cases hfs : fs.files f.path with
  | none => simp [InputFile.read, hfs] at h
  | some c =>
    by_cases hp : f.position < 0
    · simp [InputFile.read, hfs, hp] at h
    · simp [InputFile.read, hfs, hp] at h
      obtain ⟨hf', hn⟩ := h
      refine ⟨by omega, by omega, ?_⟩
      rw [← hf', ← hn]

/-- Witness for C7's theorem: a handle at position 1 over a 3-byte file,
asked for 5 bytes, transfers 2 bytes and advances to position 3. -/
theorem read_success_count_bounds_position_advance_witness :
    (0 : Int) ≤ 2 ∧ (2 : Int) ≤ 5 ∧ (3 : Int) = 1 + 2 :=
  read_success_count_bounds_position_advance { files := fun _ => some [9, 9, 9] }
    { path := pathA, position := 1, length := 3 } 5 (by decide)
    { path := pathA, position := 3, length := 3 } 2 (by decide)

/-- Claim C8: `seekInternal` is a no-op (its body is empty in the source);
`seek` updates only the stream's own logical position — the shared handle and
every other field are untouched, and no filesystem access occurs (`seek` does
not even take the filesystem) — and the fill path repositions the handle
lazily: the reconciliation step equals a no-op when the handle's recorded
position already matches the logical position, and equals `setPosition` on
the shared handle exactly when they differ. -/
theorem seek_logical_only_lazy_reposition (s : SimpleFSIndexInput) (pos : Int) :
    s.seekInternal pos = s ∧
    (s.seek pos).file = s.file ∧
    (s.seek pos).filePointer = pos ∧
    (s.seek pos).path = s.path ∧
    (s.seek pos).chunkSize = s.chunkSize ∧
    (s.seek pos).isClone = s.isClone ∧
    s.reconcile = (if s.filePointer = s.file.position then (s.file, Except.ok ())
                   else s.file.setPosition s.filePointer) := by
  refine ⟨rfl, rfl, rfl, rfl, rfl, rfl, ?_⟩
  by_cases h : s.filePointer = s.file.position <;>
    simp [SimpleFSIndexInput.reconcile, h]

/-- Claim C9: `clone` returns a stream with the same shared handle, the same
path and `chunkSize`, its own copy of the current logical position, and
`isClone = true`; it is a pure function of the stream (it takes no filesystem
argument, hence performs no I/O and leaves the original and the handle
unchanged). -/
theorem clone_shares_handle_copies_state (s : SimpleFSIndexInput) :
    s.clone.file = s.file ∧
    s.clone.path = s.path ∧
    s.clone.chunkSize = s.chunkSize ∧
    s.clone.isClone = true ∧
    s.clone.filePointer = s.filePointer :=
  ⟨rfl, rfl, rfl, rfl, rfl⟩

/-- Claim C4: for a well-formed buffered output stream (while open, its handle
pointer is set and the handle open — as established by `construct`), `close`
raises no error; a second `close` is a no-op that raises no error and leaves
the stream and the on-disk bytes exactly as they were; and any write
attempted after close fails with the `closed` error. -/
theorem double_close_noop_write_after_close_fails
    (s : SimpleFSIndexOutput) (disk : List Nat)
    (hwf : s.isOpen = true → handleOk s.file = true) :
    (s.close disk).2.2 = Except.ok () ∧
    ((s.close disk).1).close ((s.close disk).2.1)
      = ((s.close disk).1, (s.close disk).2.1, Except.ok ()) ∧
    (∀ b : List Nat,
      (((s.close disk).1).writeBytes ((s.close disk).2.1) b).2.2
        = Except.error Err.closed) := by
  by_cases ho : s.isOpen
  · cases hf : s.file with
    | none => exact absurd (hwf ho) (by simp [hf, handleOk])
    | some f =>
      have hopen : f.isHandleOpen = true := by
        have := hwf ho
        simpa [hf, handleOk] using this
      simp [SimpleFSIndexOutput.close, ho, hf, OutputFile.write, hopen,
            SimpleFSIndexOutput.writeBytes]
  · simp [SimpleFSIndexOutput.close, ho, SimpleFSIndexOutput.writeBytes]

/-- Witness for C4's theorem: a freshly constructed output stream with two
bytes already on disk; close succeeds, a second close is the identity no-op,
and writing one byte afterwards fails with the `closed` error. -/
theorem double_close_noop_write_after_close_fails_witness :
    ((SimpleFSIndexOutput.construct pathA).close [1, 2]).2.2 = Except.ok () ∧
    (((SimpleFSIndexOutput.construct pathA).close [1, 2]).1).close
        (((SimpleFSIndexOutput.construct pathA).close [1, 2]).2.1)
      = (((SimpleFSIndexOutput.construct pathA).close [1, 2]).1,
         ((SimpleFSIndexOutput.construct pathA).close [1, 2]).2.1, Except.ok ()) ∧
    ((((SimpleFSIndexOutput.construct pathA).close [1, 2]).1).writeBytes
        (((SimpleFSIndexOutput.construct pathA).close [1, 2]).2.1) [5]).2.2
      = Except.error Err.closed := by
  have h := double_close_noop_write_after_close_fails
    (SimpleFSIndexOutput.construct pathA) [1, 2] (fun _ => rfl)
  exact ⟨h.1, h.2.1, h.2.2 [5]⟩

/-- A buffered stream whose logical position (1) lies beyond the snapshot
length of its empty file: reachable by seeking past end of file, which the
purely-logical `seek` never validates. -/
def sPastEnd : SimpleFSIndexInput :=
  { path := pathA, file := fEmpty, chunkSize := 1, isClone := false, filePointer := 1 }

/-- Claim C10 counterexample: a fill request of length 0 on a stream whose
logical position lies outside the snapshot bounds does NOT complete without
error — the reconciliation step's `setPosition` raises the out-of-range
error (while still moving the handle's position to 1). -/
theorem zero_length_fill_out_of_bounds_errors_cex :
    SimpleFSIndexInput.readInternal sPastEnd fsEmpty 0 0
      = some ({ path := pathA, file := { path := pathA, position := 1, length := 0 },
                chunkSize := 1, isClone := false, filePointer := 1 },
              Except.error Err.outOfRange) := by
  rfl

/-- Claim C10 (amended): a fill request of zero or negative length performs
no physical read — the result is determined by the reconciliation step alone,
for any fuel, and the filesystem is never consulted — and it leaves the
shared handle's position equal to the stream's logical file pointer (setting
it when the two differ, and leaving it untouched when they already agree);
it completes without error in every case but one: exactly when the logical
pointer differs from the handle's recorded position AND lies outside
`[0, length]`, the reconciliation's `setPosition` raises the out-of-range
error (with the handle's position nonetheless updated).  In particular a
stream whose pointer is out of bounds but already agrees with the handle's
position — reachable via the failure mode of `setPosition` itself — skips
reconciliation and completes without error. -/
theorem zero_length_fill_reconciles_no_read
    (fs : FS) (s : SimpleFSIndexInput) (len : Int) (fuel : Nat) (hlen : len ≤ 0) :
    s.readInternal fs len fuel
      = some ({ s with file := (s.reconcile).1 },
              ((s.reconcile).2).map (fun _ => (0 : Int))) ∧
    ((s.reconcile).1).position = s.filePointer ∧
    ((s.reconcile).2 = Except.error Err.outOfRange ↔
      (s.filePointer ≠ s.file.position ∧
        (s.filePointer < 0 ∨ s.filePointer > s.file.length))) := by
  have hnl : ¬ (0 : Int) < len := by omega
  have hloop : ∀ f1 : InputFile,
      readLoop fs s.chunkSize len f1 0 fuel = some (f1, Except.ok 0) := by
    intro f1
    rw [readLoop.eq_def]
    simp [hnl]
  by_cases h : s.filePointer = s.file.position
  · refine ⟨?_, ?_, ?_⟩
    · simp [SimpleFSIndexInput.readInternal, SimpleFSIndexInput.reconcile, h, hloop,
            Except.map]
    · simp [SimpleFSIndexInput.reconcile, h]
    · simp [SimpleFSIndexInput.reconcile, h]
  · by_cases hb : s.filePointer < 0 ∨ s.filePointer > s.file.length
    · refine ⟨?_, ?_, ?_⟩
      · simp [SimpleFSIndexInput.readInternal, SimpleFSIndexInput.reconcile, h,
              InputFile.setPosition, hb, Except.map]
      · simp [SimpleFSIndexInput.reconcile, h, InputFile.setPosition, hb]
      · simp [SimpleFSIndexInput.reconcile, h, InputFile.setPosition, hb]
    · refine ⟨?_, ?_, ?_⟩
      · simp [SimpleFSIndexInput.readInternal, SimpleFSIndexInput.reconcile, h,
              InputFile.setPosition, hb, hloop, Except.map]
      · simp [SimpleFSIndexInput.reconcile, h, InputFile.setPosition, hb]
      · simp [SimpleFSIndexInput.reconcile, h, InputFile.setPosition, hb]

/-- Witness for C10's amended theorem: a stream over the empty file with
logical position 0 and fuel 3; a zero-length fill returns the reconciled
state, and the error characterisation instantiates to an equivalence of two
false sides (the pointer agrees with the handle's position, so no error). -/
theorem zero_length_fill_reconciles_no_read_witness :
    SimpleFSIndexInput.readInternal sEmpty fsEmpty 0 3
      = some ({ sEmpty with file := (sEmpty.reconcile).1 },
              ((sEmpty.reconcile).2).map (fun _ => (0 : Int))) ∧
    ((sEmpty.reconcile).1).position = sEmpty.filePointer ∧
    ((sEmpty.reconcile).2 = Except.error Err.outOfRange ↔
      (sEmpty.filePointer ≠ sEmpty.file.position ∧
        (sEmpty.filePointer < 0 ∨ sEmpty.filePointer > sEmpty.file.length))) :=
  zero_length_fill_reconciles_no_read fsEmpty sEmpty 0 3 (by decide)
